import Mathlib

/-!
Shallow embedding of the reconciliation core of the ElectronicsInventorySystem
repository (Python), together with theorems settling the specification claims.

Source files embedded:
- electronic_inv_sys/contracts/models.py (ProductOrderInfo, DigiKeyProductDetails,
  InventoryItemImport, NewInventoryItem, ExistingInventoryItem)
- electronic_inv_sys/util.py (ots, relatively_similar)
- electronic_inv_sys/logic/importer/mapping.py (map_inv_item_import_to_inv_item)
- electronic_inv_sys/logic/importer/merge.py (merge_and_import_item,
  _merge_order_details, _merge_product_details)
- electronic_inv_sys/infrastructure/db/mongodb/inventory_repo.py
  (add_new_item, set_existing_item, get_item_by_digikey_part_number)
- electronic_inv_sys/logic/details_update.py (refine_product_details)

Modelling conventions: Python `None` becomes `Option.none`; Python exceptions
become `Except` error values, raised strictly before any store write, so a
function that returns an error value has not modified the store; pydantic
`set` fields become `Finset`; MongoDB `ObjectId` keys become `Nat`; Python
truthiness on optional strings (where `None` and `""` are both falsy) is made
explicit via `strTruthy`.
-/

namespace EIS

/-- Python truthiness of an optional string: None and the empty string are falsy. -/
def strTruthy : Option String → Bool
  | none => false
  | some s => s ≠ ""

/-- Python `a or b` for optional strings (left operand wins when truthy). -/
def pyOrStr (a b : Option String) : Option String :=
  if strTruthy a then a else b

/-- Python truthiness of an optional int: None and 0 are falsy. -/
def natTruthy : Option Nat → Bool
  | none => false
  | some n => n ≠ 0

/-- Python `a or b` for optional ints (left operand wins when truthy). -/
def pyOrNat (a b : Option Nat) : Option Nat :=
  if natTruthy a then a else b

/-- Python truthiness of an optional string list: None and the empty list are falsy. -/
def listTruthy : Option (List String) → Bool
  | none => false
  | some l => l ≠ []

/-- Python `a if a else b` for optional string lists. -/
def pyOrList (a b : Option (List String)) : Option (List String) :=
  if listTruthy a then a else b

/-- ProductOrderInfo from contracts/models.py. `quantity`, `sales_order_id` and
`invoice_id` are pydantic PositiveInt in the source; they are embedded as `Nat`
with positivity tracked by `ProductOrderInfo.Valid` where it matters. -/
structure ProductOrderInfo where
  product_description : Option String
  quantity : Nat
  sales_order_id : Option Nat
  invoice_id : Option Nat
  country_of_origin : Option String
  lot_code : Option String
  conflicts : Bool := false
deriving DecidableEq, Repr

/-- Pydantic validation facts about a ProductOrderInfo: quantity is a
PositiveInt, and the optional order ids are PositiveInt when present. -/
def ProductOrderInfo.Valid (o : ProductOrderInfo) : Prop :=
  0 < o.quantity ∧ (∀ n ∈ o.sales_order_id, 0 < n) ∧ (∀ n ∈ o.invoice_id, 0 < n)

/-- conflicts_with from contracts/models.py: the orders conflict when they
differ in a field that is non-null on both sides (quantity is always set). -/
def conflicts_with (a b : ProductOrderInfo) : Bool :=
  (decide (a.sales_order_id ≠ b.sales_order_id) && a.sales_order_id.isSome
      && b.sales_order_id.isSome)
  || (decide (a.invoice_id ≠ b.invoice_id) && a.invoice_id.isSome
      && b.invoice_id.isSome)
  || (decide (a.country_of_origin ≠ b.country_of_origin) && a.country_of_origin.isSome
      && b.country_of_origin.isSome)
  || decide (a.quantity ≠ b.quantity)
  || (decide (a.lot_code ≠ b.lot_code) && a.lot_code.isSome
      && b.lot_code.isSome)

/-- The record built by ProductOrderInfo.merge in contracts/models.py when the
operands do not conflict. Python `or` is truthiness-based, hence `pyOrStr` and
`pyOrNat`. The `conflicts` field is left at its default (false). -/
def mergeOk (a b : ProductOrderInfo) : ProductOrderInfo :=
  { product_description := pyOrStr a.product_description b.product_description
    quantity := a.quantity
    sales_order_id := pyOrNat a.sales_order_id b.sales_order_id
    invoice_id := pyOrNat a.invoice_id b.invoice_id
    country_of_origin := pyOrStr a.country_of_origin b.country_of_origin
    lot_code := pyOrStr a.lot_code b.lot_code }

/-- ProductOrderInfo.merge from contracts/models.py: raises ValueError on
conflicting operands, otherwise builds the merged record. -/
def merge (a b : ProductOrderInfo) : Except String ProductOrderInfo :=
  if conflicts_with a b then .error "Cannot merge conflicting ProductOrderInfo"
  else .ok (mergeOk a b)

/-- The conflict condition exactly as the specification words it (section 3
invariant): used to compare the code predicate against the spec. -/
def conflictsSpec (a b : ProductOrderInfo) : Prop :=
  (a.sales_order_id.isSome ∧ b.sales_order_id.isSome ∧ a.sales_order_id ≠ b.sales_order_id)
  ∨ (a.invoice_id.isSome ∧ b.invoice_id.isSome ∧ a.invoice_id ≠ b.invoice_id)
  ∨ (a.country_of_origin.isSome ∧ b.country_of_origin.isSome ∧ a.country_of_origin ≠ b.country_of_origin)
  ∨ a.quantity ≠ b.quantity
  ∨ (a.lot_code.isSome ∧ b.lot_code.isSome ∧ a.lot_code ≠ b.lot_code)

lemma conflicts_with_iff (a b : ProductOrderInfo) :
    conflicts_with a b = true ↔ conflictsSpec a b := by
  simp only [conflicts_with, conflictsSpec, Bool.or_eq_true, Bool.and_eq_true,
    decide_eq_true_eq]
  tauto

lemma conflictsSpec_symm_aux (a b : ProductOrderInfo) :
    conflictsSpec a b → conflictsSpec b a := by
  rintro (⟨h1, h2, h3⟩ | ⟨h1, h2, h3⟩ | ⟨h1, h2, h3⟩ | h | ⟨h1, h2, h3⟩)
  · exact Or.inl ⟨h2, h1, h3.symm⟩
  · exact Or.inr (Or.inl ⟨h2, h1, h3.symm⟩)
  · exact Or.inr (Or.inr (Or.inl ⟨h2, h1, h3.symm⟩))
  · exact Or.inr (Or.inr (Or.inr (Or.inl h.symm)))
  · exact Or.inr (Or.inr (Or.inr (Or.inr ⟨h2, h1, h3.symm⟩)))

/-- Claim C5: conflicts_with is symmetric, and it is true exactly when some
field that is non-null on both sides differs (quantity always counting),
null fields never causing a conflict. -/
theorem claim_C5 (a b : ProductOrderInfo) :
    conflicts_with a b = conflicts_with b a
      ∧ (conflicts_with a b = true ↔ conflictsSpec a b) := by
  refine ⟨?_, conflicts_with_iff a b⟩
  rw [Bool.eq_iff_iff, conflicts_with_iff, conflicts_with_iff]
  exact ⟨conflictsSpec_symm_aux a b, conflictsSpec_symm_aux b a⟩

/-- Claim C4: merge fails with the merge-conflict error exactly when
conflicts_with holds, and returns normally otherwise. -/
theorem claim_C4 (a b : ProductOrderInfo) :
    (merge a b = .error "Cannot merge conflicting ProductOrderInfo"
        ↔ conflicts_with a b = true)
      ∧ ((∃ r, merge a b = .ok r) ↔ conflicts_with a b = false) := by
  unfold merge
  by_cases h : conflicts_with a b = true
  · simp [h]
  · simp [Bool.not_eq_true] at h
    simp [h]

/-- Concrete left operand for the C6 counterexample: its description is the
empty string, which is non-null but falsy in Python. -/
def cexC6a : ProductOrderInfo :=
  { product_description := some ""
    quantity := 1
    sales_order_id := none
    invoice_id := none
    country_of_origin := none
    lot_code := none }

/-- Concrete right operand for the C6 counterexample. -/
def cexC6b : ProductOrderInfo :=
  { product_description := some "x"
    quantity := 1
    sales_order_id := none
    invoice_id := none
    country_of_origin := none
    lot_code := none }

/-- Claim C6 counterexample: the operands do not conflict, the left
description is non-null (some ""), yet merge returns the right description,
so a non-null left value IS replaced by the right value. -/
theorem claim_C6_cex :
    conflicts_with cexC6a cexC6b = false
      ∧ cexC6a.product_description = some ""
      ∧ merge cexC6a cexC6b
          = .ok { product_description := some "x"
                  quantity := 1
                  sales_order_id := none
                  invoice_id := none
                  country_of_origin := none
                  lot_code := none } := by
  refine ⟨by decide, rfl, rfl⟩

/-- Claim C6 as amended: for non-conflicting validated operands, merge keeps
the left quantity; each optional field takes the left value when that value is
truthy in Python (non-null, and non-empty for strings; the positive ids are
truthy exactly when non-null), and otherwise takes the right value. -/
theorem claim_C6 (a b : ProductOrderInfo) (ha : a.Valid)
    (h : conflicts_with a b = false) :
    ∃ r, merge a b = .ok r
      ∧ r.quantity = a.quantity
      ∧ (∀ v, a.sales_order_id = some v → r.sales_order_id = some v)
      ∧ (a.sales_order_id = none → r.sales_order_id = b.sales_order_id)
      ∧ (∀ v, a.invoice_id = some v → r.invoice_id = some v)
      ∧ (a.invoice_id = none → r.invoice_id = b.invoice_id)
      ∧ (strTruthy a.product_description = true → r.product_description = a.product_description)
      ∧ (strTruthy a.product_description = false → r.product_description = b.product_description)
      ∧ (strTruthy a.country_of_origin = true → r.country_of_origin = a.country_of_origin)
      ∧ (strTruthy a.country_of_origin = false → r.country_of_origin = b.country_of_origin)
      ∧ (strTruthy a.lot_code = true → r.lot_code = a.lot_code)
      ∧ (strTruthy a.lot_code = false → r.lot_code = b.lot_code) := by
  refine ⟨mergeOk a b, ?_, rfl, ?_, ?_, ?_, ?_, ?_, ?_, ?_, ?_, ?_, ?_⟩
  · simp [merge, h]
  · intro v hv
    have hpos : 0 < v := ha.2.1 v (by simp [hv])
    simp [mergeOk, pyOrNat, natTruthy, hv, Nat.pos_iff_ne_zero.mp hpos]
  · intro hv; simp [mergeOk, pyOrNat, natTruthy, hv]
  · intro v hv
    have hpos : 0 < v := ha.2.2 v (by simp [hv])
    simp [mergeOk, pyOrNat, natTruthy, hv, Nat.pos_iff_ne_zero.mp hpos]
  · intro hv; simp [mergeOk, pyOrNat, natTruthy, hv]
  · intro hv; simp [mergeOk, pyOrStr, hv]
  · intro hv; simp [mergeOk, pyOrStr, hv]
  · intro hv; simp [mergeOk, pyOrStr, hv]
  · intro hv; simp [mergeOk, pyOrStr, hv]
  · intro hv; simp [mergeOk, pyOrStr, hv]
  · intro hv; simp [mergeOk, pyOrStr, hv]

/-- Witness for the amended claim C6 at a concrete pair of orders. -/
theorem claim_C6_witness :
    ∃ r,
      merge
          { product_description := some "res"
            quantity := 4
            sales_order_id := some 7
            invoice_id := none
            country_of_origin := none
            lot_code := some "L1" }
          { product_description := none
            quantity := 4
            sales_order_id := none
            invoice_id := some 9
            country_of_origin := some "US"
            lot_code := some "L1" }
        = .ok r
      ∧ r.quantity = 4
      ∧ (∀ v, (some 7 : Option Nat) = some v → r.sales_order_id = some v)
      ∧ ((some 7 : Option Nat) = none → r.sales_order_id = none)
      ∧ (∀ v, (none : Option Nat) = some v → r.invoice_id = some v)
      ∧ ((none : Option Nat) = none → r.invoice_id = some 9)
      ∧ (strTruthy (some "res") = true → r.product_description = some "res")
      ∧ (strTruthy (some "res") = false → r.product_description = none)
      ∧ (strTruthy none = true → r.country_of_origin = none)
      ∧ (strTruthy none = false → r.country_of_origin = some "US")
      ∧ (strTruthy (some "L1") = true → r.lot_code = some "L1")
      ∧ (strTruthy (some "L1") = false → r.lot_code = some "L1") :=
  claim_C6
    { product_description := some "res"
      quantity := 4
      sales_order_id := some 7
      invoice_id := none
      country_of_origin := none
      lot_code := some "L1" }
    { product_description := none
      quantity := 4
      sales_order_id := none
      invoice_id := some 9
      country_of_origin := some "US"
      lot_code := some "L1" }
    ⟨by decide, by simp, by simp⟩
    (by decide)

/-- Claim C10: merging two non-conflicting orders always yields a record whose
conflict flag is false, whatever the flags of the operands were (the merge
constructor leaves the flag at its default). -/
theorem claim_C10 (a b : ProductOrderInfo) (h : conflicts_with a b = false) :
    ∃ r, merge a b = .ok r ∧ r.conflicts = false := by
  exact ⟨mergeOk a b, by simp [merge, h], rfl⟩

/-- Witness for claim C10 at a concrete pair whose conflict flags are both set. -/
theorem claim_C10_witness :
    ∃ r,
      merge
          { product_description := none
            quantity := 2
            sales_order_id := none
            invoice_id := some 5
            country_of_origin := none
            lot_code := none
            conflicts := true }
          { product_description := none
            quantity := 2
            sales_order_id := none
            invoice_id := some 5
            country_of_origin := none
            lot_code := none
            conflicts := true }
        = .ok r ∧ r.conflicts = false :=
  claim_C10
    { product_description := none
      quantity := 2
      sales_order_id := none
      invoice_id := some 5
      country_of_origin := none
      lot_code := none
      conflicts := true }
    { product_description := none
      quantity := 2
      sales_order_id := none
      invoice_id := some 5
      country_of_origin := none
      lot_code := none
      conflicts := true }
    (by decide)

/-- One inner step of the edit-distance dynamic program: walk the rest of the
second string together with the matching tail of the previous row, carrying
the diagonal predecessor and the value just computed to the left. -/
def indelRowGo (c : Char) :
    List Char → List Nat → Nat → Nat → List Nat
  | y :: ys, up :: ups, diag, left =>
    let cur := if c = y then diag else 1 + min up left
    cur :: indelRowGo c ys ups up cur
  | _, _, _, _ => []

/-- The next row of the edit-distance dynamic program (first column is the
row index). -/
def indelNextRow (c : Char) (b : List Char) (prev : List Nat) : List Nat :=
  match prev with
  | [] => []
  | p :: ps => (p + 1) :: indelRowGo c b ps p (p + 1)

/-- Indel edit distance on character lists: Levenshtein distance with
substitution unavailable, equivalently Levenshtein with substitution weight 2,
which is the distance underlying Levenshtein.ratio in the Python Levenshtein
package used by util.relatively_similar. Computed with the standard row-wise
dynamic program so that it evaluates inside the kernel. -/
def indelDist (a b : List Char) : Nat :=
  (a.foldl (fun prev c => indelNextRow c b prev) (List.range (b.length + 1))).getLastD 0

/-- Levenshtein.ratio(a, b) is (lensum - dist) / lensum (with ratio 1 for two
empty strings); this decides ratio at least one half without rationals. -/
def ratioAtLeastHalf (a b : List Char) : Bool :=
  a.length + b.length ≤ 2 * (a.length + b.length - indelDist a b)

/-- Whitespace word-splitting of Python str.split() on character lists (the
accumulator collects the current word reversed). -/
def wordsAux : List Char → List Char → List (List Char)
  | [], acc => if acc.isEmpty then [] else [acc.reverse]
  | c :: cs, acc =>
    if c.isWhitespace then
      if acc.isEmpty then wordsAux cs [] else acc.reverse :: wordsAux cs []
    else wordsAux cs (c :: acc)

/-- The normalization pipeline of util.relatively_similar: lowercase, strip
and collapse internal whitespace to single spaces, then drop characters that
are neither alphanumeric nor a space. Python str.lower and str.isalnum are
Unicode-aware; the embedding uses the Lean Char primitives, which agree on
the ASCII range. -/
def normalizeName (s : String) : List Char :=
  let words := wordsAux (s.toList.map Char.toLower) []
  (List.intercalate [' '] words).filter (fun c => c.isAlphanum || c = ' ')

/-- relatively_similar from util.py: normalize both strings, then require a
Levenshtein ratio of at least 0.5. -/
def relatively_similar (a b : String) : Bool :=
  ratioAtLeastHalf (normalizeName a) (normalizeName b)

/-- DigiKeyProductDetails from contracts/models.py. -/
structure DigiKeyProductDetails where
  product_url : Option String
  datasheet_url : Option String
  image_url : Option String
  detailed_description : Option String
  product_warnings : Option (List String)
deriving DecidableEq, Repr

/-- InventoryItemImport from contracts/models.py: one shipment line to import. -/
structure InventoryItemImport where
  quantity : Nat
  item_description : String
  is_description_placeholder : Bool
  digikey_order : Option ProductOrderInfo
  digikey_barcode_2d : Option String
  digikey_barcode_1d : Option String
  digikey_part_number : Option String
  manufacturer_part_number : Option String
  manufacturer_name : Option String
  product_details : Option DigiKeyProductDetails
deriving DecidableEq

/-- NewInventoryItem from contracts/models.py; Python sets become Finsets. -/
structure NewInventoryItem where
  available_quantity : Nat
  item_description : String
  is_description_placeholder : Bool
  slot_ids : Finset Nat
  digikey_orders : List ProductOrderInfo
  digikey_barcode_2d : Finset String
  digikey_barcode_1d : Finset String
  comments : String
  digikey_part_number : Option String
  manufacturer_part_number : Option String
  manufacturer_name : Option String
  product_details : Option DigiKeyProductDetails
deriving DecidableEq

/-- ExistingInventoryItem from contracts/models.py: a stored item with its id
(ObjectId embedded as Nat). -/
structure ExistingInventoryItem extends NewInventoryItem where
  id : Nat
deriving DecidableEq

/-- ots from util.py: optional to set. -/
def ots (v : Option String) : Finset String :=
  match v with
  | none => ∅
  | some x => {x}

/-- The errors the import and store operations can raise. -/
inductive ImportErr where
  | validationErr : String → ImportErr
  | manufacturerInfoMismatch : String → String → ImportErr
  | duplicateDigiKeyPartNumber : Nat → Option Nat → ImportErr
  | keyErr : String → ImportErr
deriving DecidableEq

/-- MergeResult from logic/importer/merge.py. -/
inductive MergeResult where
  | NewItemWithoutDigikeyNumber
  | NewItemWithDigikeyNumber
  | NewItemMergedIntoExistingStock
  | DuplicateOrder
deriving DecidableEq

/-- MergeOrderResult from logic/importer/merge.py. -/
inductive MergeOrderResult where
  | NoOrder
  | New
  | Duplicate
deriving DecidableEq

/-- The inventory collection: the list of stored documents plus the id the
database will hand out next. -/
structure Store where
  nextId : Nat
  items : List ExistingInventoryItem
deriving DecidableEq

/-- get_item_by_digikey_part_number: first stored document whose part number
field equals the argument (MongoDB find_one / the contract default scan). -/
def get_item_by_digikey_part_number (s : Store) (pdn : String) :
    Option ExistingInventoryItem :=
  s.items.find? (fun it => decide (it.digikey_part_number = some pdn))

/-- add_new_item from infrastructure/db/mongodb/inventory_repo.py: reject a
non-null part number already present (identifying the pre-existing id and a
null id for the new record), otherwise insert under a fresh id. -/
def add_new_item (s : Store) (item : NewInventoryItem) :
    Except ImportErr (Nat × Store) :=
  match item.digikey_part_number with
  | some pdn =>
    match get_item_by_digikey_part_number s pdn with
    | some m => .error (.duplicateDigiKeyPartNumber m.id none)
    | none =>
      .ok (s.nextId,
        { nextId := s.nextId + 1
          items := s.items ++ [{ toNewInventoryItem := item, id := s.nextId }] })
  | none =>
    .ok (s.nextId,
      { nextId := s.nextId + 1
        items := s.items ++ [{ toNewInventoryItem := item, id := s.nextId }] })

/-- replace_one keyed on the id: replace the first document with that id. -/
def replaceById (items : List ExistingInventoryItem) (item : ExistingInventoryItem) :
    List ExistingInventoryItem :=
  match items with
  | [] => []
  | x :: xs => if x.id = item.id then item :: xs else x :: replaceById xs item

/-- set_existing_item from infrastructure/db/mongodb/inventory_repo.py: reject
when another document owns the part number (identifying the pre-existing id
and the replaced id), reject an unknown id, otherwise replace atomically.
Errors are raised before the write, so an error leaves the store untouched. -/
def set_existing_item (s : Store) (item : ExistingInventoryItem) :
    Except ImportErr Store :=
  match (match item.digikey_part_number with
         | some pdn =>
           match get_item_by_digikey_part_number s pdn with
           | some m =>
             if m.id ≠ item.id then
               Except.error (ImportErr.duplicateDigiKeyPartNumber m.id (some item.id))
             else Except.ok ()
           | none => Except.ok ()
         | none => Except.ok ()) with
  | .error e => .error e
  | .ok () =>
    if s.items.any (fun it => decide (it.id = item.id)) then
      .ok { s with items := replaceById s.items item }
    else
      .error (.keyErr "Item not found in inventory")

/-- map_inv_item_import_to_inv_item from logic/importer/mapping.py. The order
guard is a pydantic-model truthiness test (a model is always truthy), hence
isSome; the barcode guards are string truthiness tests, so an empty-string
barcode is dropped. -/
def map_inv_item_import_to_inv_item (item : InventoryItemImport) : NewInventoryItem :=
  { available_quantity := item.quantity
    item_description := item.item_description
    is_description_placeholder := item.is_description_placeholder
    digikey_orders :=
      match item.digikey_order with
      | some o => [o]
      | none => []
    digikey_barcode_2d := if strTruthy item.digikey_barcode_2d then ots item.digikey_barcode_2d else ∅
    digikey_barcode_1d := if strTruthy item.digikey_barcode_1d then ots item.digikey_barcode_1d else ∅
    digikey_part_number := item.digikey_part_number
    manufacturer_name := item.manufacturer_name
    manufacturer_part_number := item.manufacturer_part_number
    product_details := item.product_details
    slot_ids := ∅
    comments := "" }

/-- The _merge_product_details function from logic/importer/merge.py; the
field guards are Python truthiness, so empty strings and empty warning lists
on the new side do not win. -/
def merge_product_details :
    Option DigiKeyProductDetails → Option DigiKeyProductDetails →
      Option DigiKeyProductDetails
  | none, n => n
  | some e, none => some e
  | some e, some n =>
    some
      { product_url := pyOrStr n.product_url e.product_url
        datasheet_url := pyOrStr n.datasheet_url e.datasheet_url
        image_url := pyOrStr n.image_url e.image_url
        detailed_description := pyOrStr n.detailed_description e.detailed_description
        product_warnings := pyOrList n.product_warnings e.product_warnings }

/-- The loop body of _merge_order_details from logic/importer/merge.py, over
the existing history. Returns the rebuilt list, the found flag (some
same-invoice entry merged cleanly) and the conflicts flag (some same-invoice
entry conflicted). The merged entry is order.merge(new), which cannot raise
here because the branch has checked conflicts_with first. -/
def mergeOrderGo (newO : ProductOrderInfo) :
    List ProductOrderInfo → List ProductOrderInfo × Bool × Bool
  | [] => ([], false, false)
  | order :: rest =>
    let r := mergeOrderGo newO rest
    if order.invoice_id = newO.invoice_id then
      if conflicts_with order newO then
        (order :: r.1, r.2.1, true)
      else
        (mergeOk order newO :: r.1, true, r.2.2)
    else
      (order :: r.1, r.2.1, r.2.2)

/-- The _merge_order_details function from logic/importer/merge.py: with no
incoming order nothing happens; otherwise same-invoice entries are merged
when clean (result Duplicate) or kept alongside (conflict flag accumulated);
when no clean merge happened the new order is appended carrying the
accumulated conflict flag, and the result is New. -/
def merge_order_details (existing : List ProductOrderInfo)
    (new : Option ProductOrderInfo) :
    List ProductOrderInfo × MergeOrderResult :=
  match new with
  | none => (existing, MergeOrderResult.NoOrder)
  | some newO =>
    let r := mergeOrderGo newO existing
    if r.2.1 then (r.1, MergeOrderResult.Duplicate)
    else (r.1 ++ [{ newO with conflicts := r.2.2 }], MergeOrderResult.New)

/-- The strict_order_matching validation at the top of merge_and_import_item. -/
def strictCheck (imp : InventoryItemImport) : Except ImportErr Unit :=
  if imp.digikey_part_number.isNone then
    .error (.validationErr "Cannot use strict order matching without a digikey part number")
  else
    match imp.digikey_order with
    | none => .error (.validationErr "Cannot use strict order matching without an order")
    | some o =>
      if o.invoice_id.isNone then
        .error (.validationErr "Cannot use strict order matching without an invoice id")
      else .ok ()

/-- The manufacturer-field reconciliation of merge_and_import_item; the same
match block appears once for the manufacturer part number and once for the
manufacturer name. Null sides defer to the other side; equal or fuzzy-similar
values keep the existing one; a real mismatch raises naming both values. -/
def reconcileMfr (existing imported : Option String) :
    Except ImportErr (Option String) :=
  match existing, imported with
  | none, none => .ok none
  | none, some s => .ok (some s)
  | some s, none => .ok (some s)
  | some s1, some s2 =>
    if s1 = s2 || relatively_similar s1 s2 then .ok (some s1)
    else .error (.manufacturerInfoMismatch s1 s2)

/-- merge_and_import_item from logic/importer/merge.py. The config lookup of
STRICT_ORDER_MATCHING (default false) is the Bool argument. The repository is
the Store passed in and returned: an exception propagates before any write,
so error outcomes return the store unchanged. -/
def merge_and_import_item (imp : InventoryItemImport) (strict : Bool)
    (s : Store) : Except ImportErr (Nat × MergeResult) × Store :=
  match (if strict then strictCheck imp else .ok ()) with
  | .error e => (.error e, s)
  | .ok () =>
    match imp.digikey_part_number with
    | none =>
      match add_new_item s (map_inv_item_import_to_inv_item imp) with
      | .error e => (.error e, s)
      | .ok (id, s1) => (.ok (id, MergeResult.NewItemWithoutDigikeyNumber), s1)
    | some pdn =>
      match get_item_by_digikey_part_number s pdn with
      | none =>
        match add_new_item s (map_inv_item_import_to_inv_item imp) with
        | .error e => (.error e, s)
        | .ok (id, s1) => (.ok (id, MergeResult.NewItemWithDigikeyNumber), s1)
      | some existing_item =>
        match reconcileMfr existing_item.manufacturer_part_number
            imp.manufacturer_part_number with
        | .error e => (.error e, s)
        | .ok manufacturer_part_number =>
          match reconcileMfr existing_item.manufacturer_name
              imp.manufacturer_name with
          | .error e => (.error e, s)
          | .ok manufacturer_name =>
            let mo := merge_order_details existing_item.digikey_orders imp.digikey_order
            let qr : Nat × MergeResult :=
              match mo.2 with
              | MergeOrderResult.NoOrder =>
                (existing_item.available_quantity + imp.quantity,
                  MergeResult.NewItemMergedIntoExistingStock)
              | MergeOrderResult.New =>
                (existing_item.available_quantity + imp.quantity,
                  MergeResult.NewItemMergedIntoExistingStock)
              | MergeOrderResult.Duplicate =>
                (existing_item.available_quantity, MergeResult.DuplicateOrder)
            let merged_item : ExistingInventoryItem :=
              { id := existing_item.id
                available_quantity := qr.1
                item_description :=
                  if existing_item.is_description_placeholder then imp.item_description
                  else existing_item.item_description
                is_description_placeholder :=
                  existing_item.is_description_placeholder && imp.is_description_placeholder
                slot_ids := existing_item.slot_ids
                digikey_orders := mo.1
                digikey_barcode_2d :=
                  existing_item.digikey_barcode_2d ∪ ots imp.digikey_barcode_2d
                digikey_barcode_1d :=
                  existing_item.digikey_barcode_1d ∪ ots imp.digikey_barcode_1d
                comments := existing_item.comments
                digikey_part_number := existing_item.digikey_part_number
                manufacturer_part_number := manufacturer_part_number
                manufacturer_name := manufacturer_name
                product_details :=
                  merge_product_details existing_item.product_details imp.product_details }
            match set_existing_item s merged_item with
            | .error e => (.error e, s)
            | .ok s1 => (.ok (merged_item.id, qr.2), s1)

lemma mergeOrderGo_spec (newO : ProductOrderInfo) (l : List ProductOrderInfo) :
    mergeOrderGo newO l =
      (l.map (fun e =>
          if e.invoice_id = newO.invoice_id ∧ conflicts_with e newO = false
          then mergeOk e newO else e),
       l.any (fun e => decide (e.invoice_id = newO.invoice_id) && !conflicts_with e newO),
       l.any (fun e => decide (e.invoice_id = newO.invoice_id) && conflicts_with e newO)) := by
  induction l with
  | nil => rfl
  | cons hd tl ih =>
    simp only [mergeOrderGo, ih, List.map_cons, List.any_cons]
    by_cases h1 : hd.invoice_id = newO.invoice_id
    · by_cases h2 : conflicts_with hd newO = true
      · simp [h1, h2]
      · simp only [Bool.not_eq_true] at h2
        simp [h1, h2]
    · simp [h1]

lemma merge_order_details_dup (o : ProductOrderInfo) (l : List ProductOrderInfo)
    (hdup : ∃ e ∈ l, e.invoice_id = o.invoice_id ∧ conflicts_with e o = false) :
    merge_order_details l (some o) =
      (l.map (fun e =>
          if e.invoice_id = o.invoice_id ∧ conflicts_with e o = false
          then mergeOk e o else e),
       MergeOrderResult.Duplicate) := by
  rcases hdup with ⟨e, he, h3, h4⟩
  have hfound :
      l.any (fun e => decide (e.invoice_id = o.invoice_id) && !conflicts_with e o) = true :=
    List.any_eq_true.mpr ⟨e, he, by simp [h3, h4]⟩
  simp [merge_order_details, mergeOrderGo_spec, hfound]

lemma merge_order_details_allconf (o : ProductOrderInfo) (l : List ProductOrderInfo)
    (hsame : ∃ e ∈ l, e.invoice_id = o.invoice_id)
    (hall : ∀ e ∈ l, e.invoice_id = o.invoice_id → conflicts_with e o = true) :
    merge_order_details l (some o) =
      (l ++ [{ o with conflicts := true }], MergeOrderResult.New) := by
  have hfound :
      l.any (fun e => decide (e.invoice_id = o.invoice_id) && !conflicts_with e o) = false := by
    rw [List.any_eq_false]
    intro e he
    by_cases h1 : e.invoice_id = o.invoice_id
    · simp [h1, hall e he h1]
    · simp [h1]
  have hconf :
      l.any (fun e => decide (e.invoice_id = o.invoice_id) && conflicts_with e o) = true := by
    rcases hsame with ⟨e, he, h1⟩
    exact List.any_eq_true.mpr ⟨e, he, by simp [h1, hall e he h1]⟩
  have hmap :
      l.map (fun e =>
          if e.invoice_id = o.invoice_id ∧ conflicts_with e o = false
          then mergeOk e o else e) = l := by
    have : ∀ e ∈ l,
        (if e.invoice_id = o.invoice_id ∧ conflicts_with e o = false
         then mergeOk e o else e) = id e := by
      intro e he
      by_cases h1 : e.invoice_id = o.invoice_id
      · simp [h1, hall e he h1]
      · simp [h1]
    rw [List.map_congr_left this, List.map_id]
  simp [merge_order_details, mergeOrderGo_spec, hfound, hconf, hmap]

lemma get_pdn_spec (s : Store) (pdn : String) (ex : ExistingInventoryItem)
    (h : get_item_by_digikey_part_number s pdn = some ex) :
    ex.digikey_part_number = some pdn ∧ ex ∈ s.items := by
  refine ⟨?_, List.mem_of_find?_eq_some h⟩
  have := List.find?_some h
  simpa using this

/-- Claim C1: when the import matches an existing item by vendor part number,
the manufacturer reconciliation passes, and the non-null incoming order shares
its invoice id with a stored history entry it does not conflict with, the
merge returns DuplicateOrder, replaces each such entry with the section 4.1
merge of the pair, and leaves available_quantity unchanged; the store update
replaces the stored item atomically by id. -/
theorem claim_C1
    (imp : InventoryItemImport) (strict : Bool) (s : Store)
    (pdn : String) (ex : ExistingInventoryItem) (o : ProductOrderInfo)
    (pnr mnr : Option String)
    (h1 : imp.digikey_part_number = some pdn)
    (h2 : get_item_by_digikey_part_number s pdn = some ex)
    (ho : imp.digikey_order = some o)
    (hstrict : strict = true → o.invoice_id.isSome)
    (hpn : reconcileMfr ex.manufacturer_part_number imp.manufacturer_part_number = .ok pnr)
    (hmn : reconcileMfr ex.manufacturer_name imp.manufacturer_name = .ok mnr)
    (hdup : ∃ e ∈ ex.digikey_orders, e.invoice_id = o.invoice_id ∧ conflicts_with e o = false) :
    ∃ merged : ExistingInventoryItem,
      merge_and_import_item imp strict s =
          (.ok (ex.id, MergeResult.DuplicateOrder),
            { s with items := replaceById s.items merged })
        ∧ merged.id = ex.id
        ∧ merged.available_quantity = ex.available_quantity
        ∧ merged.digikey_orders =
            ex.digikey_orders.map
              (fun e =>
                if e.invoice_id = o.invoice_id ∧ conflicts_with e o = false
                then mergeOk e o else e) := by
  obtain ⟨hexpdn, hexmem⟩ := get_pdn_spec s pdn ex h2
  have hmo := merge_order_details_dup o ex.digikey_orders hdup
  have hcheck : (if strict then strictCheck imp else Except.ok ()) = Except.ok () := by
    cases strict with
    | false => rfl
    | true =>
      have hinv := hstrict rfl
      simp [strictCheck, h1, ho, Option.isNone_eq_false_iff, Option.isSome_iff_ne_none.mp hinv]
  refine
    ⟨{ id := ex.id
       available_quantity := ex.available_quantity
       item_description :=
         if ex.is_description_placeholder then imp.item_description else ex.item_description
       is_description_placeholder :=
         ex.is_description_placeholder && imp.is_description_placeholder
       slot_ids := ex.slot_ids
       digikey_orders :=
         ex.digikey_orders.map
           (fun e =>
             if e.invoice_id = o.invoice_id ∧ conflicts_with e o = false
             then mergeOk e o else e)
       digikey_barcode_2d := ex.digikey_barcode_2d ∪ ots imp.digikey_barcode_2d
       digikey_barcode_1d := ex.digikey_barcode_1d ∪ ots imp.digikey_barcode_1d
       comments := ex.comments
       digikey_part_number := ex.digikey_part_number
       manufacturer_part_number := pnr
       manufacturer_name := mnr
       product_details := merge_product_details ex.product_details imp.product_details },
     ?_, rfl, rfl, rfl⟩
  have hany : s.items.any (fun it => decide (it.id = ex.id)) = true :=
    List.any_eq_true.mpr ⟨ex, hexmem, by simp⟩
  simp only [merge_and_import_item, hcheck, h1, h2, ho, hpn, hmn, hmo,
    set_existing_item, hexpdn, hany]
  simp

/-- Claim C2: when the import matches an existing item, the manufacturer
reconciliation passes, and every stored history entry sharing the invoice id
of the incoming order conflicts with it (at least one does), the merge keeps
all existing entries, appends the new order with its conflict flag set, adds
the imported quantity to available_quantity, and returns MergedIntoExisting. -/
theorem claim_C2
    (imp : InventoryItemImport) (strict : Bool) (s : Store)
    (pdn : String) (ex : ExistingInventoryItem) (o : ProductOrderInfo)
    (pnr mnr : Option String)
    (h1 : imp.digikey_part_number = some pdn)
    (h2 : get_item_by_digikey_part_number s pdn = some ex)
    (ho : imp.digikey_order = some o)
    (hstrict : strict = true → o.invoice_id.isSome)
    (hpn : reconcileMfr ex.manufacturer_part_number imp.manufacturer_part_number = .ok pnr)
    (hmn : reconcileMfr ex.manufacturer_name imp.manufacturer_name = .ok mnr)
    (hsame : ∃ e ∈ ex.digikey_orders, e.invoice_id = o.invoice_id)
    (hall : ∀ e ∈ ex.digikey_orders, e.invoice_id = o.invoice_id → conflicts_with e o = true) :
    ∃ merged : ExistingInventoryItem,
      merge_and_import_item imp strict s =
          (.ok (ex.id, MergeResult.NewItemMergedIntoExistingStock),
            { s with items := replaceById s.items merged })
        ∧ merged.id = ex.id
        ∧ merged.available_quantity = ex.available_quantity + imp.quantity
        ∧ merged.digikey_orders = ex.digikey_orders ++ [{ o with conflicts := true }] := by
  obtain ⟨hexpdn, hexmem⟩ := get_pdn_spec s pdn ex h2
  have hmo := merge_order_details_allconf o ex.digikey_orders hsame hall
  have hcheck : (if strict then strictCheck imp else Except.ok ()) = Except.ok () := by
    cases strict with
    | false => rfl
    | true =>
      have hinv := hstrict rfl
      simp [strictCheck, h1, ho, Option.isNone_eq_false_iff, Option.isSome_iff_ne_none.mp hinv]
  refine
    ⟨{ id := ex.id
       available_quantity := ex.available_quantity + imp.quantity
       item_description :=
         if ex.is_description_placeholder then imp.item_description else ex.item_description
       is_description_placeholder :=
         ex.is_description_placeholder && imp.is_description_placeholder
       slot_ids := ex.slot_ids
       digikey_orders := ex.digikey_orders ++ [{ o with conflicts := true }]
       digikey_barcode_2d := ex.digikey_barcode_2d ∪ ots imp.digikey_barcode_2d
       digikey_barcode_1d := ex.digikey_barcode_1d ∪ ots imp.digikey_barcode_1d
       comments := ex.comments
       digikey_part_number := ex.digikey_part_number
       manufacturer_part_number := pnr
       manufacturer_name := mnr
       product_details := merge_product_details ex.product_details imp.product_details },
     ?_, rfl, rfl, rfl⟩
  have hany : s.items.any (fun it => decide (it.id = ex.id)) = true :=
    List.any_eq_true.mpr ⟨ex, hexmem, by simp⟩
  simp only [merge_and_import_item, hcheck, h1, h2, ho, hpn, hmn, hmo,
    set_existing_item, hexpdn, hany]
  simp

/-- Claim C3: with an existing item matched by vendor part number, a pair of
non-null manufacturer part numbers (or, the part numbers reconciling, a pair
of non-null manufacturer names) that are neither equal nor fuzzy-similar makes
the merge fail with ManufacturerInfoMismatch naming both values, and the
returned store is exactly the input store: nothing was written. -/
theorem claim_C3
    (imp : InventoryItemImport) (strict : Bool) (s : Store)
    (pdn : String) (ex : ExistingInventoryItem) (m1 m2 : String)
    (h1 : imp.digikey_part_number = some pdn)
    (h2 : get_item_by_digikey_part_number s pdn = some ex)
    (hcheck : (if strict then strictCheck imp else Except.ok ()) = Except.ok ())
    (hwhich :
      (ex.manufacturer_part_number = some m1 ∧ imp.manufacturer_part_number = some m2)
      ∨ ((∃ r, reconcileMfr ex.manufacturer_part_number imp.manufacturer_part_number
            = .ok r)
         ∧ ex.manufacturer_name = some m1 ∧ imp.manufacturer_name = some m2))
    (hne : m1 ≠ m2)
    (hsim : relatively_similar m1 m2 = false) :
    merge_and_import_item imp strict s =
      (.error (.manufacturerInfoMismatch m1 m2), s) := by
  rcases hwhich with ⟨hm1, hm2⟩ | ⟨⟨pnr, hpn⟩, hm1, hm2⟩
  · simp only [merge_and_import_item, hcheck, h1, h2, reconcileMfr, hm1, hm2]
    simp [hne, hsim]
  · simp only [merge_and_import_item, hcheck, h1, h2, hpn]
    simp only [reconcileMfr, hm1, hm2]
    simp [hne, hsim]

/-- An order line of invoice 100 for 3 units, used by the concrete scenarios. -/
def cOrder1 : ProductOrderInfo :=
  { product_description := none
    quantity := 3
    sales_order_id := none
    invoice_id := some 100
    country_of_origin := none
    lot_code := none }

/-- A conflicting order line of the same invoice 100 for 5 units. -/
def cOrder2 : ProductOrderInfo :=
  { product_description := none
    quantity := 5
    sales_order_id := none
    invoice_id := some 100
    country_of_origin := none
    lot_code := none }

/-- A stored item carrying vendor part number DK1, quantity 8, history of one
order: the state after first importing cOrder1 onto a 5-unit stock. -/
def cItem : ExistingInventoryItem :=
  { id := 1
    available_quantity := 8
    item_description := "resistor"
    is_description_placeholder := false
    slot_ids := ∅
    digikey_orders := [cOrder1]
    digikey_barcode_2d := ∅
    digikey_barcode_1d := ∅
    comments := ""
    digikey_part_number := some "DK1"
    manufacturer_part_number := none
    manufacturer_name := some "Acme Corp"
    product_details := none }

/-- A store holding exactly cItem. -/
def cStore : Store := { nextId := 2, items := [cItem] }

/-- Re-import of the identical shipment cOrder1. -/
def cImpDup : InventoryItemImport :=
  { quantity := 3
    item_description := "resistor"
    is_description_placeholder := false
    digikey_order := some cOrder1
    digikey_barcode_2d := none
    digikey_barcode_1d := none
    digikey_part_number := some "DK1"
    manufacturer_part_number := none
    manufacturer_name := some "ACME CORP."
    product_details := none }

/-- Import of a second, different line under the same invoice. -/
def cImpConf : InventoryItemImport :=
  { quantity := 5
    item_description := "resistor"
    is_description_placeholder := false
    digikey_order := some cOrder2
    digikey_barcode_2d := none
    digikey_barcode_1d := none
    digikey_part_number := some "DK1"
    manufacturer_part_number := none
    manufacturer_name := none
    product_details := none }

/-- Import whose manufacturer name differs non-trivially from the stored one. -/
def cImpMis : InventoryItemImport :=
  { quantity := 5
    item_description := "resistor"
    is_description_placeholder := false
    digikey_order := none
    digikey_barcode_2d := none
    digikey_barcode_1d := none
    digikey_part_number := some "DK1"
    manufacturer_part_number := none
    manufacturer_name := some "Zzz 9999 Industries"
    product_details := none }

/-- Witness for claim C1: re-importing the identical shipment. -/
theorem claim_C1_witness :
    ∃ merged : ExistingInventoryItem,
      merge_and_import_item cImpDup false cStore =
          (.ok (cItem.id, MergeResult.DuplicateOrder),
            { cStore with items := replaceById cStore.items merged })
        ∧ merged.id = cItem.id
        ∧ merged.available_quantity = cItem.available_quantity
        ∧ merged.digikey_orders =
            cItem.digikey_orders.map
              (fun e =>
                if e.invoice_id = cOrder1.invoice_id ∧ conflicts_with e cOrder1 = false
                then mergeOk e cOrder1 else e) :=
  claim_C1 cImpDup false cStore "DK1" cItem cOrder1 none (some "Acme Corp")
    rfl rfl rfl (by simp) rfl rfl (by decide)

/-- Witness for claim C2: a conflicting line under the same invoice is kept
alongside, flagged, and the quantity grows from 8 to 13. -/
theorem claim_C2_witness :
    ∃ merged : ExistingInventoryItem,
      merge_and_import_item cImpConf false cStore =
          (.ok (cItem.id, MergeResult.NewItemMergedIntoExistingStock),
            { cStore with items := replaceById cStore.items merged })
        ∧ merged.id = cItem.id
        ∧ merged.available_quantity = cItem.available_quantity + cImpConf.quantity
        ∧ merged.digikey_orders = cItem.digikey_orders ++ [{ cOrder2 with conflicts := true }] :=
  claim_C2 cImpConf false cStore "DK1" cItem cOrder2 none (some "Acme Corp")
    rfl rfl rfl (by simp) rfl rfl (by decide) (by decide)

/-- Witness for claim C3: a manufacturer-name mismatch aborts the merge with
the store returned untouched. -/
theorem claim_C3_witness :
    merge_and_import_item cImpMis false cStore =
      (.error (.manufacturerInfoMismatch "Acme Corp" "Zzz 9999 Industries"), cStore) :=
  claim_C3 cImpMis false cStore "DK1" cItem "Acme Corp" "Zzz 9999 Industries"
    rfl rfl rfl (Or.inr ⟨⟨none, rfl⟩, rfl, rfl⟩) (by decide) (by decide)

/-- Well-formedness of the inventory collection: ids are below the id counter,
ids are pairwise distinct, and at most one stored item carries any given
non-null vendor part number. -/
def StoreWF (s : Store) : Prop :=
  (∀ it ∈ s.items, it.id < s.nextId)
  ∧ s.items.Pairwise (fun a b => a.id ≠ b.id)
  ∧ ∀ a ∈ s.items, ∀ b ∈ s.items, ∀ p, a.digikey_part_number = some p →
      b.digikey_part_number = some p → a = b

lemma add_ok_shape (s : Store) (rec : NewInventoryItem) (i : Nat) (s1 : Store)
    (h : add_new_item s rec = .ok (i, s1)) :
    i = s.nextId ∧ s1.nextId = s.nextId + 1
      ∧ s1.items = s.items ++ [{ toNewInventoryItem := rec, id := s.nextId }]
      ∧ (∀ p, rec.digikey_part_number = some p →
          get_item_by_digikey_part_number s p = none) := by
  unfold add_new_item at h
  cases hp : rec.digikey_part_number with
  | none =>
    simp only [hp, Except.ok.injEq, Prod.mk.injEq] at h
    exact ⟨h.1.symm, by rw [← h.2], by rw [← h.2], fun p hq => by simp [hp] at hq⟩
  | some p =>
    cases hg : get_item_by_digikey_part_number s p with
    | none =>
      simp only [hp, hg, Except.ok.injEq, Prod.mk.injEq] at h
      refine ⟨h.1.symm, by rw [← h.2], by rw [← h.2], fun q hq => ?_⟩
      injection hq with hq
      rw [← hq]
      exact hg
    | some m =>
      simp only [hp, hg] at h
      exact Except.noConfusion h

lemma set_ok_shape (s : Store) (item : ExistingInventoryItem) (s1 : Store)
    (h : set_existing_item s item = .ok s1) :
    s1.nextId = s.nextId ∧ s1.items = replaceById s.items item
      ∧ (∃ x ∈ s.items, x.id = item.id)
      ∧ (∀ p, item.digikey_part_number = some p →
          ∀ m, get_item_by_digikey_part_number s p = some m → m.id = item.id) := by
  unfold set_existing_item at h
  cases hp : item.digikey_part_number with
  | none =>
    cases hany : s.items.any (fun it => decide (it.id = item.id)) with
    | false => simp [hp, hany] at h
    | true =>
      simp only [hp, hany, if_true, Except.ok.injEq] at h
      rcases List.any_eq_true.mp hany with ⟨x, hx, hxid⟩
      exact ⟨by rw [← h], by rw [← h], ⟨x, hx, of_decide_eq_true hxid⟩,
        fun p hq => by simp [hp] at hq⟩
  | some p =>
    cases hg : get_item_by_digikey_part_number s p with
    | none =>
      cases hany : s.items.any (fun it => decide (it.id = item.id)) with
      | false => simp [hp, hg, hany] at h
      | true =>
        simp only [hp, hg, hany, if_true, Except.ok.injEq] at h
        rcases List.any_eq_true.mp hany with ⟨x, hx, hxid⟩
        refine ⟨by rw [← h], by rw [← h], ⟨x, hx, of_decide_eq_true hxid⟩,
          fun q hq m hm => ?_⟩
        injection hq with hq
        rw [← hq] at hm
        rw [hg] at hm
        cases hm
    | some m =>
      by_cases hid : m.id = item.id
      · cases hany : s.items.any (fun it => decide (it.id = item.id)) with
        | false => simp [hp, hg, hid, hany] at h
        | true =>
          simp only [hp, hg, hid, ne_eq, not_true_eq_false, if_false, hany, if_true,
            Except.ok.injEq] at h
          rcases List.any_eq_true.mp hany with ⟨x, hx, hxid⟩
          refine ⟨by rw [← h], by rw [← h], ⟨x, hx, of_decide_eq_true hxid⟩,
            fun q hq m2 hm2 => ?_⟩
          injection hq with hq
          rw [← hq] at hm2
          rw [hg] at hm2
          injection hm2 with hm2
          rw [← hm2]
          exact hid
      · simp [hp, hg, hid] at h


lemma replaceById_decomp (l : List ExistingInventoryItem)
    (item x : ExistingInventoryItem) (hx : x ∈ l) (hid : x.id = item.id)
    (hpair : l.Pairwise (fun a b => a.id ≠ b.id)) :
    ∃ l1 l2, l = l1 ++ x :: l2 ∧ (∀ y ∈ l1, y.id ≠ item.id)
      ∧ replaceById l item = l1 ++ item :: l2 := by
  induction l with
  | nil => cases hx
  | cons hd tl ih =>
    rcases List.pairwise_cons.mp hpair with ⟨hhd, htl⟩
    by_cases hh : hd.id = item.id
    · have hxhd : x = hd := by
        rcases List.mem_cons.mp hx with hx | hx
        · exact hx
        · exact absurd (hid.trans hh.symm).symm (hhd x hx)
      refine ⟨[], tl, by simp [hxhd], by simp, ?_⟩
      simp [replaceById, hh]
    · have hxtl : x ∈ tl := by
        rcases List.mem_cons.mp hx with hx | hx
        · exact absurd (hx ▸ hid) hh
        · exact hx
      rcases ih hxtl htl with ⟨l1, l2, hsplit, hl1, hrep⟩
      refine ⟨hd :: l1, l2, by simp [hsplit], ?_, ?_⟩
      · intro y hy
        rcases List.mem_cons.mp hy with hy | hy
        · exact hy ▸ hh
        · exact hl1 y hy
      · simp [replaceById, hh, hrep]

lemma storeWF_add (s : Store) (rec : NewInventoryItem) (i : Nat) (s1 : Store)
    (hWF : StoreWF s) (h : add_new_item s rec = .ok (i, s1)) : StoreWF s1 := by
  obtain ⟨hlt, hpair, huniq⟩ := hWF
  obtain ⟨hi, hnext, hitems, hfresh⟩ := add_ok_shape s rec i s1 h
  have hnotin : ∀ p, rec.digikey_part_number = some p →
      ∀ y ∈ s.items, y.digikey_part_number ≠ some p := by
    intro p hp y hy
    have := List.find?_eq_none.mp (hfresh p hp) y hy
    simpa using this
  refine ⟨?_, ?_, ?_⟩
  · intro it hit
    rw [hitems] at hit
    rw [hnext]
    rcases List.mem_append.mp hit with hit | hit
    · exact Nat.lt_succ_of_lt (hlt it hit)
    · simp at hit
      rw [hit]
      exact Nat.lt_succ_self _
  · rw [hitems, List.pairwise_append]
    refine ⟨hpair, List.pairwise_singleton _ _, ?_⟩
    intro a ha b hb
    simp at hb
    rw [hb]
    exact Nat.ne_of_lt (hlt a ha)
  · intro a ha b hb p hap hbp
    rw [hitems] at ha hb
    rcases List.mem_append.mp ha with ha | ha <;>
      rcases List.mem_append.mp hb with hb | hb
    · exact huniq a ha b hb p hap hbp
    · simp at hb
      rw [hb] at hbp
      exact absurd hap (hnotin p hbp a ha)
    · simp at ha
      rw [ha] at hap
      exact absurd hbp (hnotin p hap b hb)
    · simp at ha hb
      rw [ha, hb]

lemma storeWF_set (s : Store) (item : ExistingInventoryItem) (s1 : Store)
    (hWF : StoreWF s) (h : set_existing_item s item = .ok s1) : StoreWF s1 := by
  obtain ⟨hlt, hpair, huniq⟩ := hWF
  obtain ⟨hnext, hitems, ⟨x, hx, hxid⟩, hdupok⟩ := set_ok_shape s item s1 h
  rcases replaceById_decomp s.items item x hx hxid hpair with ⟨l1, l2, hsplit, hl1, hrep⟩
  have hxlt := hlt x hx
  have hcarrier : ∀ p, item.digikey_part_number = some p →
      ∀ y ∈ s.items, y.digikey_part_number = some p → y.id = item.id := by
    intro p hp y hy hyp
    cases hg : get_item_by_digikey_part_number s p with
    | none =>
      have := List.find?_eq_none.mp hg y hy
      simp [hyp] at this
    | some m =>
      have hmid := hdupok p hp m hg
      have hmmem := List.mem_of_find?_eq_some hg
      have hmp : m.digikey_part_number = some p := by
        have := List.find?_some hg
        simpa using this
      have hym := huniq y hy m hmmem p hyp hmp
      rw [hym, hmid]
  have hsub1 : ∀ y ∈ l1, y ∈ s.items := by
    intro y hy
    rw [hsplit]
    exact List.mem_append.mpr (Or.inl hy)
  have hsub2 : ∀ y ∈ l2, y ∈ s.items := by
    intro y hy
    rw [hsplit]
    exact List.mem_append.mpr (Or.inr (List.mem_cons_of_mem x hy))
  have hl2id : ∀ y ∈ l2, x.id ≠ y.id := by
    rw [hsplit] at hpair
    have hx2 := (List.pairwise_append.mp hpair).2.1
    intro y hy
    exact (List.pairwise_cons.mp hx2).1 y hy
  have hcase : ∀ y, y ∈ l1 ++ item :: l2 →
      y = item ∨ (y ∈ s.items ∧ y.id ≠ item.id) := by
    intro y hy
    rcases List.mem_append.mp hy with hy | hy
    · exact Or.inr ⟨hsub1 y hy, hl1 y hy⟩
    · rcases List.mem_cons.mp hy with hy | hy
      · exact Or.inl hy
      · refine Or.inr ⟨hsub2 y hy, fun hc => hl2id y hy ?_⟩
        rw [hxid]
        exact hc.symm
  refine ⟨?_, ?_, ?_⟩
  · intro it hit
    rw [hitems, hrep] at hit
    rw [hnext]
    rcases hcase it hit with hit | ⟨hitS, _⟩
    · rw [hit, ← hxid]
      exact hxlt
    · exact hlt it hitS
  · rw [hitems, hrep]
    rw [hsplit] at hpair
    rcases List.pairwise_append.mp hpair with ⟨hp1, hp2, hcross⟩
    rcases List.pairwise_cons.mp hp2 with ⟨hx2, hp3⟩
    rw [List.pairwise_append]
    refine ⟨hp1, List.pairwise_cons.mpr ⟨?_, hp3⟩, ?_⟩
    · intro b hb
      rw [← hxid]
      exact hx2 b hb
    · intro a ha b hb
      rcases List.mem_cons.mp hb with hb | hb
      · rw [hb]
        exact hl1 a ha
      · exact hcross a ha b (List.mem_cons_of_mem x hb)
  · intro a ha b hb p hap hbp
    rw [hitems, hrep] at ha hb
    rcases hcase a ha with haI | ⟨haS, haNe⟩ <;> rcases hcase b hb with hbI | ⟨hbS, hbNe⟩
    · rw [haI, hbI]
    · rw [haI] at hap
      exact absurd (hcarrier p hap b hbS hbp) hbNe
    · rw [hbI] at hbp
      exact absurd (hcarrier p hbp a haS hap) haNe
    · exact huniq a haS b hbS p hap hbp


/-- Claim C7: adding a record whose non-null vendor part number is already
carried fails with the duplicate-key error naming the pre-existing id and a
null id for the new record; replacing a record whose non-null vendor part
number is carried by a different stored item fails with the duplicate-key
error naming the owner and the replaced id; both errors are raised before any
write, and both successful operations preserve store well-formedness, so at
most one stored item ever carries a given non-null vendor part number. -/
theorem claim_C7 :
    (∀ (s : Store) (rec : NewInventoryItem) (pdn : String) (m : ExistingInventoryItem),
        rec.digikey_part_number = some pdn →
        get_item_by_digikey_part_number s pdn = some m →
        add_new_item s rec = .error (.duplicateDigiKeyPartNumber m.id none))
    ∧ (∀ (s : Store) (item : ExistingInventoryItem) (pdn : String)
          (m : ExistingInventoryItem),
        item.digikey_part_number = some pdn →
        get_item_by_digikey_part_number s pdn = some m → m.id ≠ item.id →
        set_existing_item s item = .error (.duplicateDigiKeyPartNumber m.id (some item.id)))
    ∧ (∀ (s : Store) (rec : NewInventoryItem) (i : Nat) (s1 : Store),
        StoreWF s → add_new_item s rec = .ok (i, s1) → StoreWF s1)
    ∧ (∀ (s : Store) (item : ExistingInventoryItem) (s1 : Store),
        StoreWF s → set_existing_item s item = .ok s1 → StoreWF s1) := by
  refine ⟨?_, ?_, storeWF_add, storeWF_set⟩
  · intro s rec pdn m hp hg
    simp [add_new_item, hp, hg]
  · intro s item pdn m hp hg hne
    simp [set_existing_item, hp, hg, hne]

/-- A second stored item carrying vendor part number DK2. -/
def cItem2 : ExistingInventoryItem :=
  { id := 2
    available_quantity := 4
    item_description := "capacitor"
    is_description_placeholder := false
    slot_ids := ∅
    digikey_orders := []
    digikey_barcode_2d := ∅
    digikey_barcode_1d := ∅
    comments := ""
    digikey_part_number := some "DK2"
    manufacturer_part_number := none
    manufacturer_name := none
    product_details := none }

/-- A store holding cItem and cItem2. -/
def cStoreTwo : Store := { nextId := 3, items := [cItem, cItem2] }

/-- The record of cItem2 rewritten to carry DK1, which cItem already owns. -/
def cItemSwap : ExistingInventoryItem :=
  { cItem2 with digikey_part_number := some "DK1" }

/-- A fresh record carrying the unseen vendor part number DK9. -/
def cRecNew : NewInventoryItem :=
  { available_quantity := 7
    item_description := "inductor"
    is_description_placeholder := false
    slot_ids := ∅
    digikey_orders := []
    digikey_barcode_2d := ∅
    digikey_barcode_1d := ∅
    comments := ""
    digikey_part_number := some "DK9"
    manufacturer_part_number := none
    manufacturer_name := none
    product_details := none }

/-- An update of cItem keeping its id and vendor part number. -/
def cItemUpd : ExistingInventoryItem :=
  { cItem with available_quantity := 15 }

/-- Witness for claim C7 at concrete stores: duplicate add, duplicate replace,
and well-formedness after a successful add and a successful replace. -/
theorem claim_C7_witness :
    add_new_item cStore cItem.toNewInventoryItem
        = .error (.duplicateDigiKeyPartNumber cItem.id none)
      ∧ set_existing_item cStoreTwo cItemSwap
          = .error (.duplicateDigiKeyPartNumber cItem.id (some cItemSwap.id))
      ∧ StoreWF { nextId := 3, items := [cItem, { toNewInventoryItem := cRecNew, id := 2 }] }
      ∧ StoreWF { nextId := 2, items := [cItemUpd] } :=
  ⟨claim_C7.1 cStore cItem.toNewInventoryItem "DK1" cItem rfl rfl,
   claim_C7.2.1 cStoreTwo cItemSwap "DK1" cItem rfl rfl (by decide),
   claim_C7.2.2.1 cStore cRecNew 2 _
     (by simp [StoreWF, cStore, cItem]) rfl,
   claim_C7.2.2.2 cStore cItemUpd _
     (by simp [StoreWF, cStore, cItem]) rfl⟩


/-- Modelled from the spec: product status block of the raw DigiKey product
(the generated module contracts/digikey_models/product_search.py is not part
of the repository sources; only the fields read by refine_product_details are
modelled, with optionality as guarded by the code). -/
structure ProductStatusT where
  Status : String
deriving DecidableEq

/-- Modelled from the spec: compliance classifications block of the raw
DigiKey product. -/
structure ClassificationsT where
  RohsStatus : Option String
  MoistureSensitivityLevel : Option String
deriving DecidableEq

/-- Modelled from the spec: description block of the raw DigiKey product. -/
structure DescriptionT where
  DetailedDescription : Option String
deriving DecidableEq

/-- Modelled from the spec: the raw DigiKey product shape consumed by
refine_product_details (ProductT of the missing generated module). -/
structure ProductT where
  Description : Option DescriptionT
  QuantityAvailable : Option Int
  ProductStatus : Option ProductStatusT
  NormallyStocking : Option Bool
  Discontinued : Option Bool
  EndOfLife : Option Bool
  Classifications : Option ClassificationsT
  ProductUrl : Option String
  DatasheetUrl : Option String
  PhotoUrl : Option String
deriving DecidableEq

/-- The stock-quantity block of refine_product_details: an if followed by a
mutually exclusive elif, so the Sold out branch can fire only when the
quantity is not below 1000 yet equals 0. -/
def qtyWarnings : Option Int → List String
  | none => []
  | some q => if q < 1000 then ["Low stock"] else if q = 0 then ["Sold out"] else []

/-- The product-status block of refine_product_details. -/
def statusWarnings : Option ProductStatusT → List String
  | none => []
  | some st => if st.Status ≠ "Active" then ["Product status: " ++ st.Status] else []

/-- The RoHS match block of refine_product_details (string cases are tested
in source order). -/
def rohsWarnings : Option String → List String
  | none => ["No RoHS status"]
  | some v =>
    if v = "RoHS Compliant" then []
    else if v = "RoHS non-compliant" then ["Not RoHS compliant"]
    else if v = "RoHS Compliant By Exemption" then ["RoHS compliant by exemption"]
    else if v = "Not Applicable" then []
    else if v = "ROHS3 Compliant" then []
    else ["RoHS status: " ++ v]

/-- Python str.split(sep=None, maxsplit=1): strip leading whitespace, cut the
first whitespace-free token, consume the separator run; the remainder is kept
verbatim (empty remainder yields a one-element list, empty input none). -/
def pySplitOnce (s : String) : List String :=
  let cs := s.toList.dropWhile Char.isWhitespace
  match cs with
  | [] => []
  | _ =>
    let tok := cs.takeWhile (fun c => !c.isWhitespace)
    let rest := (cs.drop tok.length).dropWhile Char.isWhitespace
    if rest.isEmpty then [String.mk tok] else [String.mk tok, String.mk rest]

/-- Value of a non-empty all-digit character list. -/
def digitsToNat : List Char → Option Nat
  | [] => none
  | cs =>
    if cs.all Char.isDigit then
      some (cs.foldl (fun acc c => 10 * acc + (c.toNat - 48)) 0)
    else none

/-- Python int(...) on the whitespace-free token produced by pySplitOnce: an
optional sign followed by digits (underscore grouping is not modelled). -/
def pyParseInt (s : String) : Option Int :=
  match s.toList with
  | '+' :: rest => (digitsToNat rest).map Int.ofNat
  | '-' :: rest => (digitsToNat rest).map (fun n => -(n : Int))
  | rest => (digitsToNat rest).map Int.ofNat

/-- Python str.strip("()"): drop parentheses from both ends. -/
def stripParens (s : String) : String :=
  String.mk (((s.toList.dropWhile (fun c => c = '(' || c = ')')).reverse.dropWhile
    (fun c => c = '(' || c = ')')).reverse)

/-- The moisture-sensitivity block of refine_product_details: the except
ValueError path (failed unpack or failed int parse) reports the original
string, levels 0 and 1 are silent, any other parsed level reports the level
and the note with outer parentheses stripped. -/
def moistureWarnings (moisture : String) : List String :=
  if String.mk (moisture.toList.map Char.toLower) = "not applicable" then []
  else
    match pySplitOnce moisture with
    | [level, note] =>
      match pyParseInt level with
      | some lvl =>
        if lvl = 0 ∨ lvl = 1 then []
        else ["Moisture sensitivity level: " ++ toString lvl ++ " - " ++ stripParens note]
      | none => ["Moisture sensitivity level: " ++ moisture]
    | _ => ["Moisture sensitivity level: " ++ moisture]

/-- The classifications block of refine_product_details: nothing at all when
the block is absent (a pydantic model is truthy exactly when present). -/
def classificationWarnings : Option ClassificationsT → List String
  | none => []
  | some c =>
    rohsWarnings c.RohsStatus ++
      (match c.MoistureSensitivityLevel with
       | none => []
       | some m => moistureWarnings m)

/-- refine_product_details from logic/details_update.py: the warning list is
the concatenation of the blocks in source order. -/
def refine_product_details (product : ProductT) : DigiKeyProductDetails :=
  { product_url := product.ProductUrl
    datasheet_url := product.DatasheetUrl
    image_url := product.PhotoUrl
    detailed_description :=
      match product.Description with
      | some d => d.DetailedDescription
      | none => none
    product_warnings := some
      (qtyWarnings product.QuantityAvailable
        ++ statusWarnings product.ProductStatus
        ++ (if product.NormallyStocking = some false then ["Not normally stocked"] else [])
        ++ (if product.Discontinued = some true then ["Discontinued"] else [])
        ++ (if product.EndOfLife = some true then ["End of life"] else [])
        ++ classificationWarnings product.Classifications) }

lemma append_ne_of_len_lt (pre x t : String) (h : t.length < pre.length) :
    pre ++ x ≠ t := by
  intro hc
  have hl := congrArg String.length hc
  rw [String.length_append] at hl
  omega

lemma mem_qtyWarnings (s : String) (q? : Option Int) (hs : s ∈ qtyWarnings q?) :
    ∃ q, q? = some q ∧ ((q < 1000 ∧ s = "Low stock")
      ∨ (¬(q < 1000) ∧ q = 0 ∧ s = "Sold out")) := by
  cases q? with
  | none => cases hs
  | some q =>
    refine ⟨q, rfl, ?_⟩
    unfold qtyWarnings at hs
    by_cases h1 : q < 1000
    · simp [h1] at hs
      exact Or.inl ⟨h1, hs⟩
    · simp [h1] at hs
      by_cases h2 : q = 0
      · simp [h2] at hs
        exact Or.inr ⟨h1, h2, hs⟩
      · simp [h2] at hs

lemma mem_statusWarnings (s : String) (st? : Option ProductStatusT)
    (hs : s ∈ statusWarnings st?) : ∃ v, s = "Product status: " ++ v := by
  cases st? with
  | none => cases hs
  | some st =>
    unfold statusWarnings at hs
    by_cases h1 : st.Status ≠ "Active"
    · simp [h1] at hs
      exact ⟨st.Status, hs⟩
    · simp [h1] at hs

lemma mem_rohsWarnings (s : String) (r : Option String) (hs : s ∈ rohsWarnings r) :
    s = "No RoHS status" ∨ s = "Not RoHS compliant"
      ∨ s = "RoHS compliant by exemption" ∨ ∃ v, s = "RoHS status: " ++ v := by
  cases r with
  | none =>
    simp [rohsWarnings] at hs
    exact Or.inl hs
  | some v =>
    by_cases h1 : v = "RoHS Compliant"
    · simp [rohsWarnings, h1] at hs
    · by_cases h2 : v = "RoHS non-compliant"
      · simp [rohsWarnings, h1, h2] at hs
        exact Or.inr (Or.inl hs)
      · by_cases h3 : v = "RoHS Compliant By Exemption"
        · simp [rohsWarnings, h1, h2, h3] at hs
          exact Or.inr (Or.inr (Or.inl hs))
        · by_cases h4 : v = "Not Applicable"
          · simp [rohsWarnings, h1, h2, h3, h4] at hs
          · by_cases h5 : v = "ROHS3 Compliant"
            · simp [rohsWarnings, h1, h2, h3, h4, h5] at hs
            · simp [rohsWarnings, h1, h2, h3, h4, h5] at hs
              exact Or.inr (Or.inr (Or.inr ⟨v, hs⟩))

lemma mem_moistureWarnings (s m : String) (hs : s ∈ moistureWarnings m) :
    ∃ v, s = "Moisture sensitivity level: " ++ v := by
  unfold moistureWarnings at hs
  split at hs
  · cases hs
  · rcases hsp : pySplitOnce m with _ | ⟨level, _ | ⟨note, _ | ⟨w, rest⟩⟩⟩ <;>
        simp only [hsp] at hs
    · simp at hs
      exact ⟨m, hs⟩
    · simp at hs
      exact ⟨m, hs⟩
    · cases hpi : pyParseInt level with
      | none =>
        simp only [hpi] at hs
        simp at hs
        exact ⟨m, hs⟩
      | some lvl =>
        simp only [hpi] at hs
        by_cases hl : lvl = 0 ∨ lvl = 1
        · simp [hl] at hs
        · simp [hl] at hs
          refine ⟨toString lvl ++ (" - " ++ stripParens note), ?_⟩
          rw [hs]
          simp [String.append_assoc]
    · simp at hs
      exact ⟨m, hs⟩

lemma mem_classificationWarnings (s : String) (c? : Option ClassificationsT)
    (hs : s ∈ classificationWarnings c?) :
    s = "No RoHS status" ∨ s = "Not RoHS compliant"
      ∨ s = "RoHS compliant by exemption" ∨ (∃ v, s = "RoHS status: " ++ v)
      ∨ (∃ v, s = "Moisture sensitivity level: " ++ v) := by
  cases c? with
  | none => cases hs
  | some c =>
    unfold classificationWarnings at hs
    rcases List.mem_append.mp hs with hs | hs
    · rcases mem_rohsWarnings s c.RohsStatus hs with h | h | h | h
      · exact Or.inl h
      · exact Or.inr (Or.inl h)
      · exact Or.inr (Or.inr (Or.inl h))
      · exact Or.inr (Or.inr (Or.inr (Or.inl h)))
    · cases hm : c.MoistureSensitivityLevel with
      | none => rw [hm] at hs; cases hs
      | some m =>
        rw [hm] at hs
        exact Or.inr (Or.inr (Or.inr (Or.inr (mem_moistureWarnings s m hs))))


lemma mem_if_singleton (c : Prop) [Decidable c] (lit t : String)
    (h : t ∈ (if c then [lit] else [])) : t = lit := by
  split at h
  · simpa using h
  · cases h

lemma not_mem_restWarnings (p : ProductT) (t : String)
    (hlen : t.length < 13)
    (hne1 : t ≠ "Not normally stocked") (hne2 : t ≠ "Discontinued")
    (hne3 : t ≠ "End of life") (hne4 : t ≠ "No RoHS status")
    (hne5 : t ≠ "Not RoHS compliant") (hne6 : t ≠ "RoHS compliant by exemption") :
    t ∉ statusWarnings p.ProductStatus
    ∧ t ∉ (if p.NormallyStocking = some false then ["Not normally stocked"] else [])
    ∧ t ∉ (if p.Discontinued = some true then ["Discontinued"] else [])
    ∧ t ∉ (if p.EndOfLife = some true then ["End of life"] else [])
    ∧ t ∉ classificationWarnings p.Classifications := by
  refine ⟨?_, ?_, ?_, ?_, ?_⟩
  · intro h
    rcases mem_statusWarnings t _ h with ⟨v, hv⟩
    have h16 : ("Product status: ").length = 16 := by decide
    exact append_ne_of_len_lt _ v t (by omega) hv.symm
  · intro h
    exact hne1 (mem_if_singleton _ _ _ h)
  · intro h
    exact hne2 (mem_if_singleton _ _ _ h)
  · intro h
    exact hne3 (mem_if_singleton _ _ _ h)
  · intro h
    rcases mem_classificationWarnings t _ h with h | h | h | ⟨v, hv⟩ | ⟨v, hv⟩
    · exact hne4 h
    · exact hne5 h
    · exact hne6 h
    · have h13 : ("RoHS status: ").length = 13 := by decide
      exact append_ne_of_len_lt _ v t (by omega) hv.symm
    · have h28 : ("Moisture sensitivity level: ").length = 28 := by decide
      exact append_ne_of_len_lt _ v t (by omega) hv.symm

/-- Claim C8: with the quantity-available field present, refine emits
Low stock exactly when the quantity is below 1000, never emits Sold out (the
equality-zero check is an unreachable elif after the below-1000 if), a zero
quantity yields Low stock, and the two messages never appear together. -/
theorem claim_C8 (p : ProductT) (q : Int) (hq : p.QuantityAvailable = some q) :
    ∃ ws, (refine_product_details p).product_warnings = some ws
      ∧ ("Low stock" ∈ ws ↔ q < 1000)
      ∧ "Sold out" ∉ ws
      ∧ (q = 0 → "Low stock" ∈ ws)
      ∧ ¬("Low stock" ∈ ws ∧ "Sold out" ∈ ws) := by
  have hws : (refine_product_details p).product_warnings
      = some (qtyWarnings p.QuantityAvailable
          ++ statusWarnings p.ProductStatus
          ++ (if p.NormallyStocking = some false then ["Not normally stocked"] else [])
          ++ (if p.Discontinued = some true then ["Discontinued"] else [])
          ++ (if p.EndOfLife = some true then ["End of life"] else [])
          ++ classificationWarnings p.Classifications) := rfl
  obtain ⟨hB, hC, hD, hE, hF⟩ :=
    not_mem_restWarnings p "Low stock" (by decide) (by decide) (by decide)
      (by decide) (by decide) (by decide) (by decide)
  obtain ⟨hB2, hC2, hD2, hE2, hF2⟩ :=
    not_mem_restWarnings p "Sold out" (by decide) (by decide) (by decide)
      (by decide) (by decide) (by decide) (by decide)
  have hSO : "Sold out" ∉ (qtyWarnings p.QuantityAvailable
      ++ statusWarnings p.ProductStatus
      ++ (if p.NormallyStocking = some false then ["Not normally stocked"] else [])
      ++ (if p.Discontinued = some true then ["Discontinued"] else [])
      ++ (if p.EndOfLife = some true then ["End of life"] else [])
      ++ classificationWarnings p.Classifications) := by
    intro h
    simp only [List.mem_append] at h
    rcases h with ((((h | h) | h) | h) | h) | h
    · rcases mem_qtyWarnings _ _ h with ⟨q2, hq2, hcase⟩
      rw [hq] at hq2
      injection hq2 with hq2
      rcases hcase with ⟨_, hfalse⟩ | ⟨hnlt, h0, _⟩
      · exact absurd hfalse (by decide)
      · omega
    · exact hB2 h
    · exact hC2 h
    · exact hD2 h
    · exact hE2 h
    · exact hF2 h
  have hLS : "Low stock" ∈ (qtyWarnings p.QuantityAvailable
      ++ statusWarnings p.ProductStatus
      ++ (if p.NormallyStocking = some false then ["Not normally stocked"] else [])
      ++ (if p.Discontinued = some true then ["Discontinued"] else [])
      ++ (if p.EndOfLife = some true then ["End of life"] else [])
      ++ classificationWarnings p.Classifications) ↔ q < 1000 := by
    constructor
    · intro h
      simp only [List.mem_append] at h
      rcases h with ((((h | h) | h) | h) | h) | h
      · rcases mem_qtyWarnings _ _ h with ⟨q2, hq2, hcase⟩
        rw [hq] at hq2
        injection hq2 with hq2
        rcases hcase with ⟨hlt, _⟩ | ⟨_, _, hfalse⟩
        · omega
        · exact absurd hfalse (by decide)
      · exact absurd h hB
      · exact absurd h hC
      · exact absurd h hD
      · exact absurd h hE
      · exact absurd h hF
    · intro hlt
      simp only [List.mem_append]
      refine Or.inl (Or.inl (Or.inl (Or.inl (Or.inl ?_))))
      simp [qtyWarnings, hq, hlt]
  exact ⟨_, hws, hLS, hSO, fun h0 => hLS.mpr (by omega), fun hand => hSO hand.2⟩

/-- A concrete product with quantity zero and nothing else set. -/
def cProdQtyZero : ProductT :=
  { Description := none
    QuantityAvailable := some 0
    ProductStatus := none
    NormallyStocking := none
    Discontinued := none
    EndOfLife := none
    Classifications := none
    ProductUrl := none
    DatasheetUrl := none
    PhotoUrl := none }

/-- Witness for claim C8 at quantity zero. -/
theorem claim_C8_witness :
    ∃ ws, (refine_product_details cProdQtyZero).product_warnings = some ws
      ∧ ("Low stock" ∈ ws ↔ (0 : Int) < 1000)
      ∧ "Sold out" ∉ ws
      ∧ ((0 : Int) = 0 → "Low stock" ∈ ws)
      ∧ ¬("Low stock" ∈ ws ∧ "Sold out" ∈ ws) :=
  claim_C8 cProdQtyZero 0 rfl

/-- The RoHS mapping exactly as the specification words it (section 4.2 item
6): used to compare the code mapping against the spec. -/
def rohsSpecMap : Option String → List String
  | none => ["No RoHS status"]
  | some v =>
    if v = "RoHS Compliant" ∨ v = "Not Applicable" ∨ v = "ROHS3 Compliant" then []
    else if v = "RoHS non-compliant" then ["Not RoHS compliant"]
    else if v = "RoHS Compliant By Exemption" then ["RoHS compliant by exemption"]
    else ["RoHS status: " ++ v]

lemma rohsWarnings_eq_spec (r : Option String) : rohsWarnings r = rohsSpecMap r := by
  cases r with
  | none => rfl
  | some v =>
    by_cases h1 : v = "RoHS Compliant"
    · simp [rohsWarnings, rohsSpecMap, h1]
    · by_cases h2 : v = "RoHS non-compliant"
      · simp [rohsWarnings, rohsSpecMap, h1, h2]
      · by_cases h3 : v = "RoHS Compliant By Exemption"
        · simp [rohsWarnings, rohsSpecMap, h1, h2, h3]
        · by_cases h4 : v = "Not Applicable"
          · simp [rohsWarnings, rohsSpecMap, h1, h2, h3, h4]
          · by_cases h5 : v = "ROHS3 Compliant"
            · simp [rohsWarnings, rohsSpecMap, h1, h2, h3, h4, h5]
            · simp [rohsWarnings, rohsSpecMap, h1, h2, h3, h4, h5]

/-- A concrete product with no classifications block at all. -/
def cProdNoCls : ProductT :=
  { Description := none
    QuantityAvailable := none
    ProductStatus := none
    NormallyStocking := none
    Discontinued := none
    EndOfLife := none
    Classifications := none
    ProductUrl := none
    DatasheetUrl := none
    PhotoUrl := none }

/-- Claim C9 counterexample: this product has no RoHS status (it has no
classifications block at all), yet refine emits an empty warning list, so a
missing RoHS status does not always yield the No RoHS status warning. -/
theorem claim_C9_cex :
    cProdNoCls.Classifications = none
      ∧ (refine_product_details cProdNoCls).product_warnings = some []
      ∧ "No RoHS status" ∉ ([] : List String) :=
  ⟨rfl, rfl, by simp⟩

/-- Claim C9 as amended: when the raw product carries a classifications
block, the RoHS warnings appear in the refine output between the other
warning blocks, and the code mapping agrees with the spec mapping exactly:
missing status inside the block warns No RoHS status, the three compliant
statuses are silent, the two special strings map to their fixed messages,
and anything else is reported verbatim. A product without a classifications
block produces no RoHS warning at all. -/
theorem claim_C9 (p : ProductT) (c : ClassificationsT)
    (hc : p.Classifications = some c) :
    ∃ ws pre post,
      (refine_product_details p).product_warnings = some ws
        ∧ ws = pre ++ (rohsWarnings c.RohsStatus ++ post)
        ∧ rohsWarnings c.RohsStatus = rohsSpecMap c.RohsStatus := by
  refine ⟨_,
    qtyWarnings p.QuantityAvailable
      ++ statusWarnings p.ProductStatus
      ++ (if p.NormallyStocking = some false then ["Not normally stocked"] else [])
      ++ (if p.Discontinued = some true then ["Discontinued"] else [])
      ++ (if p.EndOfLife = some true then ["End of life"] else []),
    (match c.MoistureSensitivityLevel with
     | none => []
     | some m => moistureWarnings m),
    rfl, ?_, rohsWarnings_eq_spec _⟩
  simp [classificationWarnings, hc, List.append_assoc]

/-- A concrete product carrying a classifications block with an unrecognized
RoHS string. -/
def cProdRohs : ProductT :=
  { Description := none
    QuantityAvailable := none
    ProductStatus := none
    NormallyStocking := none
    Discontinued := none
    EndOfLife := none
    Classifications := some { RohsStatus := some "lead free", MoistureSensitivityLevel := none }
    ProductUrl := none
    DatasheetUrl := none
    PhotoUrl := none }

/-- Witness for the amended claim C9 at a concrete product. -/
theorem claim_C9_witness :
    ∃ ws pre post,
      (refine_product_details cProdRohs).product_warnings = some ws
        ∧ ws = pre ++ (rohsWarnings (some "lead free") ++ post)
        ∧ rohsWarnings (some "lead free") = rohsSpecMap (some "lead free") :=
  claim_C9 cProdRohs
    { RohsStatus := some "lead free", MoistureSensitivityLevel := none } rfl


/-- Witness for claim C4 at a concrete conflicting pair. -/
theorem claim_C4_witness :
    ((merge cOrder1 cOrder2 = .error "Cannot merge conflicting ProductOrderInfo")
        ↔ conflicts_with cOrder1 cOrder2 = true)
      ∧ ((∃ r, merge cOrder1 cOrder2 = .ok r) ↔ conflicts_with cOrder1 cOrder2 = false) :=
  claim_C4 cOrder1 cOrder2

/-- Witness for claim C5 at a concrete pair. -/
theorem claim_C5_witness :
    conflicts_with cOrder1 cOrder2 = conflicts_with cOrder2 cOrder1
      ∧ (conflicts_with cOrder1 cOrder2 = true ↔ conflictsSpec cOrder1 cOrder2) :=
  claim_C5 cOrder1 cOrder2

end EIS
